import Mathlib

/-!
Verification of the HR-agent orchestration core (write gate, HITL approval
controller, audit emission) against its natural-language specification.

The Python sources embedded here are:
  backend/src/hr_agent/utils.py        (is_write_sql, extract_tool_call{,s})
  backend/src/hr_agent/nodes.py        (check_if_write_operation,
                                        hitl_approval, handle_hitl_approval,
                                        route_input)
  backend/src/hr_agent/graphbuilder.py (conditional-edge mappings, loop wiring)
  backend/src/core/audit_helpers.py    (_prepare_sql_data,
                                        audit_request_received)
  backend/src/core/audit.py            (STORE_FULL_QUERY flag)

Python strings are modelled as Lean `String`, with the character-level
operations (strip/lower/startswith/endswith/in) re-implemented structurally on
`List Char` so that every definition evaluates by kernel reduction.  Python
dicts that only carry string values are modelled as association lists; a
`dict.get(k, "")` becomes `getArg`.  Python `None` becomes `Option`.  An
uncaught Python exception becomes `Except.error`.
-/

namespace HRAgent

/-- Whether `pat` is a prefix of `cs` (Python `str.startswith`, also used for
the tuple form which is an `any` over the tuple). -/
def charsStartWith : List Char → List Char → Bool
  | _, [] => true
  | [], _ :: _ => false
  | c :: cs, p :: ps => c == p && charsStartWith cs ps

/-- Whether `pat` occurs as a contiguous substring of `hay`
(Python `pat in hay`). -/
def charsContain (pat : List Char) : List Char → Bool
  | [] => charsStartWith [] pat
  | c :: rest => charsStartWith (c :: rest) pat || charsContain pat rest

/-- Whether `pat` is a suffix of `cs` (Python `str.endswith`). -/
def charsEndWith (cs pat : List Char) : Bool :=
  charsStartWith cs.reverse pat.reverse

/-- Drop leading whitespace (one side of Python `str.strip`). -/
def trimLeftChars : List Char → List Char
  | [] => []
  | c :: rest => if c.isWhitespace then trimLeftChars rest else c :: rest

/-- Python `str.strip`: drop whitespace at both ends. -/
def trimChars (cs : List Char) : List Char :=
  (trimLeftChars (trimLeftChars cs).reverse).reverse

/-- Python `str.lower` (the statements and feedback the program compares are
ASCII, where `Char.toLower` agrees with Python). -/
def lowerChars (cs : List Char) : List Char :=
  cs.map Char.toLower

/-- Python `s.lower()` on a `String`, as a character list. -/
def pyLower (s : String) : List Char :=
  lowerChars s.toList

/-- utils.py: the tuple `WRITE_PREFIXES` of mutating statement verbs. -/
def WRITE_PREFIXES : List String :=
  ["insert", "update", "delete", "upsert", "merge",
   "alter", "drop", "create", "truncate", "grant", "revoke"]

/-- utils.py `is_write_sql(sql)`:
`s = (sql or "").strip().lower()`; if `s` starts with `"with"` the result is
`" select " not in f" {s} " and not s.endswith("select")`, otherwise
`s.startswith(WRITE_PREFIXES)`.  (The `sql or ""` guard only matters for a
Python `None` argument; all call sites pass a string, possibly empty.) -/
def is_write_sql (sql : String) : Bool :=
  let s := trimChars (lowerChars sql.toList)
  if charsStartWith s "with".toList then
    !charsContain " select ".toList (' ' :: (s ++ [' '])) &&
      !charsEndWith s "select".toList
  else
    WRITE_PREFIXES.any fun p => charsStartWith s p.toList

/-- Modelled from the spec: helper that scans past a leading parenthesised
common-table-expression body, returning the remainder of the statement after
the closing parenthesis of the CTE (the statement that the `WITH ...` clause
prefixes).  Used only by the spec-side classifier below. -/
def specDropCteBody : List Char → Nat → List Char
  | [], _ => []
  | c :: rest, depth =>
    if c == '(' then specDropCteBody rest (depth + 1)
    else if c == ')' then (if depth ≤ 1 then rest else specDropCteBody rest (depth - 1))
    else specDropCteBody rest depth

/-- Modelled from the spec: "stripping a leading read-only common-table-
expression (WITH ...) prefix" — on a normalized statement beginning with
`with`, drop the CTE clause up to its closing parenthesis and trim; other
statements are unchanged. -/
def spec_strip_cte (s : List Char) : List Char :=
  if charsStartWith s "with".toList then trimChars (specDropCteBody s 0) else s

/-- Modelled from the spec: the write classifier as §4.3 states it — a verb
from the fixed mutating-verb list "anywhere at the start of the normalized
statement (after stripping a leading read-only common-table-expression
prefix) marks it a write; everything else is a read". -/
def spec_is_write_sql (sql : String) : Bool :=
  let s := trimChars (lowerChars sql.toList)
  WRITE_PREFIXES.any fun p => charsStartWith (spec_strip_cte s) p.toList

/-- Modelled from the spec: a statement the classifier could "confidently
parse as a recognized read statement", i.e. SELECT- or CTE-shaped after
normalization (§7 taxonomy (a)). -/
def spec_read_shaped (sql : String) : Bool :=
  let s := trimChars (lowerChars sql.toList)
  charsStartWith s "select".toList || charsStartWith s "with".toList

example : is_write_sql "delete from employees" = true := by decide
example : is_write_sql "select * from employees" = false := by decide
example : is_write_sql "with t as ( select 1 ) delete from t" = false := by decide
example : spec_is_write_sql "with t as ( select 1 ) delete from t" = true := by decide
example : is_write_sql "hello world" = false := by decide
example : is_write_sql "  INSERT INTO t VALUES (1)" = true := by decide

/-- A tool call as carried on an assistant message: `{id, name, args}`.  The
`args` dict carries string values (the only one the core reads is `"query"`);
`id` is `Option` because the provider may omit it (`call.get("id")`). -/
structure ToolCall where
  id : Option String
  name : String
  args : List (String × String)
deriving DecidableEq, Repr

/-- Conversation entries: `HumanMessage`, `AIMessage` and `ToolMessage` from
the source.  An `AIMessage` carries its normalized tool-call list (utils.py
`extract_tool_calls` normalizes both the `tool_calls` attribute and
Anthropic-style `tool_use` content blocks into this same id/name/args shape).
A `ToolMessage` carries `content`, `tool_call_id` and `name`. -/
inductive Message where
  | human (content : String)
  | ai (content : String) (tool_calls : List ToolCall)
  | tool (content : String) (tool_call_id : Option String) (name : String)
deriving DecidableEq, Repr

/-- utils.py `extract_tool_calls(msg)`: the tool calls of an `AIMessage`
(normalized list or `tool_use` blocks), `[]` for anything else. -/
def extract_tool_calls : Message → List ToolCall
  | .ai _ tcs => tcs
  | _ => []

/-- utils.py `extract_tool_call(msg)`: the first tool call of the message as
`(id, name, args)`, or `(None, None, {})` when there is none. -/
def extract_tool_call : Message → Option String × Option String × List (String × String)
  | .ai _ (tc :: _) => (tc.id, some tc.name, tc.args)
  | _ => (none, none, [])

/-- Python `args.get(key, "")` on a string-valued dict. -/
def getArg (args : List (String × String)) (key : String) : String :=
  match args.find? fun kv => kv.fst == key with
  | some kv => kv.snd
  | none => ""

/-- Python `a or b` for an optional string `a` (both `None` and the empty
string are falsy), as used in `name=tool_name or "execute_sql"`. -/
def pyOr (a : Option String) (b : String) : String :=
  match a with
  | some s => if s = "" then b else s
  | none => b

/-- The LangGraph `END` sentinel. -/
def END : String := "__end__"

/-- nodes.py `check_if_write_operation`, rejection guard: a `ToolMessage`
whose lower-cased content contains either rejection marker. -/
def rejection_tool_message : Message → Bool
  | .tool content _ _ =>
    charsContain "rejected by the user".toList (lowerChars content.toList) ||
      charsContain "no changes were made".toList (lowerChars content.toList)
  | _ => false

/-- nodes.py `HR_Node.check_if_write_operation(state)`: the Write Gate
router over `state["messages"]`.  Returns `END` when the list is empty, when
the last message is a rejection `ToolMessage`, when it is not an `AIMessage`,
or when it carries no tool calls; otherwise `"hitl_approval"` as soon as some
`execute_sql` call has a write-classified query (the source's early-returning
`for` loop, rendered as `List.any`), else `"tools_hr"`.  The source also
emits a best-effort `db_read` audit event for read-classified `execute_sql`
calls; that side effect does not affect the routing value modelled here. -/
def check_if_write_operation (messages : List Message) : String :=
  match messages.getLast? with
  | none => END
  | some last =>
    if rejection_tool_message last then END
    else
      match last with
      | .ai _ _ =>
        let calls := extract_tool_calls last
        if calls.isEmpty then END
        else if calls.any fun c => c.name == "execute_sql" && is_write_sql (getArg c.args "query")
        then "hitl_approval"
        else "tools_hr"
      | _ => END

/-- nodes.py `hitl_approval`, extraction loop: the SQL query and tool-call id
shown to the approver — from the first `execute_sql` call of the suspended
message's tool calls (`sql_query = ""`, `tool_call_id = None` when none). -/
def hitl_approval_extract_sql : List ToolCall → String × Option String
  | [] => ("", none)
  | c :: rest =>
    if c.name == "execute_sql" then (getArg c.args "query", c.id)
    else hitl_approval_extract_sql rest

/-- Audit events emitted around the write path (audit_helpers.py).  Only the
fields the claims constrain are carried. -/
inductive AuditEvent where
  | db_write_decision (tool_call_id : Option String) (approved : Bool) (user_feedback : String)
  | db_write_executed_success (tool_call_id : Option String) (sql : String) (result : String)
  | db_write_executed_error (tool_call_id : Option String) (sql : String) (error : String)
  | db_write_executed_blocked (tool_call_id : Option String) (sql : String) (reason : String)
deriving DecidableEq, Repr

/-- An observable step of the resume handler: an audit emission or an
invocation of the real executor (the `execute_sql` MCP tool) with the query
it was given.  The handler's result is the ordered list of these actions. -/
inductive Action where
  | audit (e : AuditEvent)
  | callExecutor (query : String)
deriving DecidableEq, Repr

/-- nodes.py `handle_hitl_approval`, decision computation: `approved = False;
if user_feedback.lower() == "approved": approved = True;
elif user_feedback.lower() == "rejected": approved = False`. -/
def feedback_approved (fb : String) : Bool :=
  if pyLower fb = "approved".toList then true
  else if pyLower fb = "rejected".toList then false
  else false

/-- The decision net effect: feedback classifies as approval exactly when it
equals `"approved"` up to case. -/
theorem feedback_approved_iff (fb : String) :
    feedback_approved fb = true ↔ pyLower fb = "approved".toList := by
  by_cases h : pyLower fb = "approved".toList <;> simp [feedback_approved, h]

/-- nodes.py `HR_Node.handle_hitl_approval(state)`: the resume handler.
Inputs are the last message of the state, `state["user_feedback"]` (absent
from the resume payload ⇒ `none` ⇒ Python raises `AttributeError` on
`.lower()`, modelled as `Except.error`), and the executor
(`self.tools[0].ainvoke`, success content or raised-exception text).  The
result pairs the ordered action trace with the `ToolMessage` appended to the
conversation.  The source emits `db_write_decision` before branching on
`approved`; the executor error content is
`f"Error executing SQL query: {type(e).__name__}: {e}"`, whose formatted
exception part is the `Except.error` payload here. -/
def handle_hitl_approval (last_message : Message) (user_feedback : Option String)
    (executor : String → Except String String) :
    Except String (List Action × Message) :=
  match user_feedback with
  | none => .error "AttributeError: NoneType object has no attribute lower"
  | some fb =>
    let tc := extract_tool_call last_message
    let tool_call_id := tc.1
    let tool_name := tc.2.1
    let tool_args := tc.2.2
    let sql_query := getArg tool_args "query"
    let approved := feedback_approved fb
    if approved then
      match executor sql_query with
      | .ok tool_result =>
        .ok ([.audit (.db_write_decision tool_call_id approved fb),
              .callExecutor sql_query,
              .audit (.db_write_executed_success tool_call_id sql_query tool_result)],
             .tool tool_result tool_call_id (pyOr tool_name "execute_sql"))
      | .error e =>
        .ok ([.audit (.db_write_decision tool_call_id approved fb),
              .callExecutor sql_query,
              .audit (.db_write_executed_error tool_call_id sql_query e)],
             .tool ("Error executing SQL query: " ++ e) tool_call_id
               (pyOr tool_name "execute_sql"))
    else
      .ok ([.audit (.db_write_decision tool_call_id approved fb),
            .audit (.db_write_executed_blocked tool_call_id sql_query "rejected_by_user")],
           .tool "Query was rejected by the user. No changes were made." tool_call_id
             (pyOr tool_name "execute_sql"))

/-- A value inside an audit event's `data` dictionary (string field or list
of strings). -/
inductive AuditVal where
  | str (v : String)
  | list (vs : List String)
deriving DecidableEq, Repr

/-- audit_helpers.py `_prepare_sql_data(sql_query)`: `{"sql": sql_query}`
when `STORE_FULL_QUERY` is set, otherwise
`{"sql_hash": f"sha256:{hash_text(sql_query)}"}`.  The configuration flag
(audit.py `STORE_FULL_QUERY`, from env `AUDIT_STORE_FULL_QUERY`, default
false) and the SHA-256 `hash_text` are passed in as parameters. -/
def prepare_sql_data (store_full_query : Bool) (hash_text : String → String)
    (sql_query : String) : List (String × AuditVal) :=
  if store_full_query then [("sql", .str sql_query)]
  else [("sql_hash", .str ("sha256:" ++ hash_text sql_query))]

/-- audit_helpers.py `audit_request_received`, construction of the
`input` data dict: `input_data["query"] = query` always (the source comment
reads "Always store the original query (first question) for audit log
display"); `query_hash` added when `STORE_FULL_QUERY` is unset; then the
topic (the given one if truthy, else a 47-character preview of the raw
query), then `selected_scopes` if truthy.  A `None` topic and an empty topic
are both falsy in the source, so the topic is a plain `String` here. -/
def audit_request_received_input_data (store_full_query : Bool)
    (hash_text : String → String) (query : String) (query_topic : String)
    (selected_scopes : List String) : List (String × AuditVal) :=
  let d := [("query", AuditVal.str query)]
  let d := if store_full_query then d else d ++ [("query_hash", .str (hash_text query))]
  let d := d ++ [("query_topic", .str (
    if query_topic ≠ "" then query_topic
    else if query.toList.length > 50 then (query.toList.take 47).asString ++ "..."
    else query))]
  if selected_scopes ≠ [] then d ++ [("selected_scopes", .list selected_scopes)] else d

/-- nodes.py `HR_Node.route_input(state)`: branch name from
`state.get("route")`. -/
def route_input (route : Option String) : String :=
  if route = some "policy_studio" then "policy_studio"
  else if route = some "onboarding" then "onboarding"
  else "process_query"

/-- graphbuilder.py: the conditional-edge mapping registered out of
`summarize_query` (branch name ↦ node). -/
def summarize_query_mapping : List (String × String) :=
  [("policy_studio", "policy_studio"), ("process_query", "process_query")]

/-- state.py `QuerySummaryOutput.route`: the closed set of route values the
topic classifier's structured output may produce. -/
def query_summary_routes : List String :=
  ["policy_studio", "onboarding", "agent_query"]

/-- graphbuilder.py: the conditional-edge mapping registered out of
`process_query` (branch name ↦ node; the `END` branch maps to `END`). -/
def process_query_mapping : List (String × String) :=
  [("hitl_approval", "hitl_approval"), ("tools_hr", "tools_hr"), (END, END)]

/-- A point in the tool-calling loop: the current graph node and the
accumulated conversation. -/
structure LoopState where
  node : String
  messages : List Message
deriving DecidableEq, Repr

/-- One transition of the tool-calling loop as wired in graphbuilder.py:
at `process_query` the model (`llm`) appends an `AIMessage` and the
conditional edge `check_if_write_operation` picks the next node (its branch
names map to identically-named nodes); the unconditional edge
`tools_hr → process_query` appends the tool node's `ToolMessage` and
returns to `process_query`.  Other nodes (including `END`) are left in
place — the wiring contains no iteration counter or cap. -/
def loopStep (llm : List Message → Message) (toolNode : List Message → Message)
    (st : LoopState) : LoopState :=
  if st.node = "process_query" then
    let msgs := st.messages ++ [llm st.messages]
    { node := check_if_write_operation msgs, messages := msgs }
  else if st.node = "tools_hr" then
    { node := "process_query", messages := st.messages ++ [toolNode st.messages] }
  else st

/-- A model that requests the same read-classified `execute_sql` call on
every turn. -/
def readOnlyLLM : List Message → Message :=
  fun _ => .ai "" [⟨some "call-1", "execute_sql", [("query", "select 1")]⟩]

/-- A tool node that resolves that call with a plain result. -/
def readToolNode : List Message → Message :=
  fun _ => .tool "rows" (some "call-1") "execute_sql"

/-- Claim C4, counterexample: on
`"with t as ( select 1 ) delete from t"` the spec's classifier (mutating
verb at the start after stripping the leading CTE prefix) says write, but
`is_write_sql` says read — the code never strips the CTE, it looks for a
space-delimited `select` token anywhere in the statement. -/
theorem C4_counterexample :
    spec_is_write_sql "with t as ( select 1 ) delete from t" = true ∧
    is_write_sql "with t as ( select 1 ) delete from t" = false := by
  decide

/-- Claim C4 (amended): for statements that do not begin with `with` after
normalization, `is_write_sql` agrees with the spec's classifier (write iff a
listed mutating verb starts the statement); a statement beginning with
`with` is instead classified a write exactly when the space-delimited token
`" select "` does not occur in the space-padded statement and the statement
does not end in `select`. -/
theorem C4_write_classifier (sql : String) :
    (charsStartWith (trimChars (lowerChars sql.toList)) "with".toList = false →
      is_write_sql sql = spec_is_write_sql sql) ∧
    (charsStartWith (trimChars (lowerChars sql.toList)) "with".toList = true →
      (is_write_sql sql = true ↔
        charsContain " select ".toList
          (' ' :: (trimChars (lowerChars sql.toList) ++ [' '])) = false ∧
        charsEndWith (trimChars (lowerChars sql.toList)) "select".toList = false)) := by
  constructor
  · intro h
    simp only [is_write_sql, spec_is_write_sql, spec_strip_cte]
    rw [h]
    simp
  · intro h
    simp only [is_write_sql]
    rw [h]
    simp

/-- Claim C4, witness: both parts of the amended statement applied at
concrete statements. -/
theorem C4_write_classifier_witness :
    is_write_sql "delete from t" = spec_is_write_sql "delete from t" ∧
    is_write_sql "with pending approvals" = true :=
  ⟨(C4_write_classifier "delete from t").1 (by decide),
   ((C4_write_classifier "with pending approvals").2 (by decide)).mpr (by decide)⟩

/-- Claim C5, counterexample: `"hello world"` is free-form text that is not
SELECT- or CTE-shaped, yet the classifier returns read, not the
conservative write the claim requires. -/
theorem C5_counterexample :
    spec_read_shaped "hello world" = false ∧ is_write_sql "hello world" = false := by
  decide

/-- Claim C5 (amended): unrecognized free-form text is NOT defaulted to
write — a statement that is not SELECT- or CTE-shaped and does not begin
with a listed mutating verb is classified as a read (the accepted
false-negative risk of the lexical heuristic). -/
theorem C5_default_read (sql : String)
    (h1 : spec_read_shaped sql = false)
    (h2 : (WRITE_PREFIXES.any fun p =>
      charsStartWith (trimChars (lowerChars sql.toList)) p.toList) = false) :
    is_write_sql sql = false := by
  have hw : charsStartWith (trimChars (lowerChars sql.toList)) "with".toList = false := by
    cases hx : charsStartWith (trimChars (lowerChars sql.toList)) "with".toList
    · rfl
    · exfalso
      simp only [spec_read_shaped] at h1
      rw [hx] at h1
      simp at h1
  simp only [is_write_sql]
  rw [hw]
  simpa using h2

/-- Claim C5, witness: the amended statement applied at `"hello world"`. -/
theorem C5_default_read_witness :
    spec_read_shaped "hello world" = false ∧
    is_write_sql "hello world" = false :=
  ⟨by decide, C5_default_read "hello world" (by decide) (by decide)⟩

/-- Claim C7, counterexample: the rejection `ToolMessage` content produced
by the resume handler is `"Query was rejected by the user. No changes were
made."` — not the claim's canonical text `"rejected, no changes made"`. -/
theorem C7_counterexample :
    handle_hitl_approval
      (.ai "" [⟨some "c1", "execute_sql", [("query", "delete from employees")]⟩])
      (some "rejected") (fun _ => .ok "done") =
      .ok ([.audit (.db_write_decision (some "c1") false "rejected"),
            .audit (.db_write_executed_blocked (some "c1") "delete from employees"
              "rejected_by_user")],
           .tool "Query was rejected by the user. No changes were made."
             (some "c1") "execute_sql") ∧
    "Query was rejected by the user. No changes were made." ≠
      "rejected, no changes made" := by
  exact ⟨rfl, by decide⟩

/-- Claim C7 (amended): on rejection (feedback that does not classify as
approval) the resume handler performs no executor call, emits the
`db_write_decision` and then the blocked `db_write_executed` audit event for
the original call id, and appends a `ToolMessage` for that same call id
whose content is the canonical rejection text
`"Query was rejected by the user. No changes were made."`. -/
theorem C7_rejected_branch (m : Message) (fb : String)
    (executor : String → Except String String)
    (hfb : pyLower fb ≠ "approved".toList) :
    handle_hitl_approval m (some fb) executor =
      .ok ([.audit (.db_write_decision (extract_tool_call m).1 false fb),
            .audit (.db_write_executed_blocked (extract_tool_call m).1
              (getArg (extract_tool_call m).2.2 "query") "rejected_by_user")],
           .tool "Query was rejected by the user. No changes were made."
             (extract_tool_call m).1 (pyOr (extract_tool_call m).2.1 "execute_sql")) := by
  have hfa : feedback_approved fb = false := by
    cases hx : feedback_approved fb
    · rfl
    · exact absurd ((feedback_approved_iff fb).mp hx) hfb
  simp only [handle_hitl_approval]
  rw [hfa]
  simp

/-- Claim C7, witness: the amended statement applied at a concrete suspended
write and feedback `"rejected"`. -/
theorem C7_rejected_branch_witness :
    pyLower "rejected" ≠ "approved".toList ∧
    handle_hitl_approval
      (.ai "" [⟨some "c1", "execute_sql", [("query", "delete from employees")]⟩])
      (some "rejected") (fun _ => .ok "done") =
      .ok ([.audit (.db_write_decision (some "c1") false "rejected"),
            .audit (.db_write_executed_blocked (some "c1") "delete from employees"
              "rejected_by_user")],
           .tool "Query was rejected by the user. No changes were made."
             (some "c1") "execute_sql") :=
  ⟨by decide,
   C7_rejected_branch
     (.ai "" [⟨some "c1", "execute_sql", [("query", "delete from employees")]⟩])
     "rejected" (fun _ => .ok "done") (by decide)⟩

/-- Claim C2, counterexample: a resume payload carrying no feedback string
at all does not produce the `BLOCKED` outcome — `state["user_feedback"]` is
`None` and the handler raises (`None.lower()`), so no blocked `ToolMessage`
and no blocked audit event are produced. -/
theorem C2_counterexample :
    handle_hitl_approval
      (.ai "" [⟨some "c1", "execute_sql", [("query", "delete from employees")]⟩])
      none (fun _ => .ok "done") =
      .error "AttributeError: NoneType object has no attribute lower" := rfl

/-- Claim C2 (amended): for every resume whose feedback string does not
equal `"approved"` up to case, the handler never calls the executor and the
outcome is the blocked branch (blocked audit event, rejection
`ToolMessage`); a resume payload carrying no feedback string at all instead
raises an error — the executor is still not called, but no `BLOCKED`
outcome is produced. -/
theorem C2_fail_closed (m : Message) (fb : String)
    (executor : String → Except String String) (tr : List Action) (out : Message)
    (hfb : pyLower fb ≠ "approved".toList)
    (h : handle_hitl_approval m (some fb) executor = .ok (tr, out)) :
    (∀ q, Action.callExecutor q ∉ tr) ∧
    Action.audit (.db_write_executed_blocked (extract_tool_call m).1
      (getArg (extract_tool_call m).2.2 "query") "rejected_by_user") ∈ tr ∧
    out = .tool "Query was rejected by the user. No changes were made."
      (extract_tool_call m).1 (pyOr (extract_tool_call m).2.1 "execute_sql") := by
  have hfa : feedback_approved fb = false := by
    cases hx : feedback_approved fb
    · rfl
    · exact absurd ((feedback_approved_iff fb).mp hx) hfb
  simp only [handle_hitl_approval] at h
  rw [hfa] at h
  simp only [Bool.false_eq_true, if_false, Except.ok.injEq, Prod.mk.injEq] at h
  obtain ⟨htr, hout⟩ := h
  subst htr
  subst hout
  refine ⟨?_, by simp, rfl⟩
  intro q
  simp

/-- Claim C2, witness: the amended statement applied at concrete ambiguous
feedback `"maybe"`. -/
theorem C2_fail_closed_witness :
    pyLower "maybe" ≠ "approved".toList ∧
    ((∀ q, Action.callExecutor q ∉
        ([.audit (.db_write_decision (some "c1") false "maybe"),
          .audit (.db_write_executed_blocked (some "c1") "delete from employees"
            "rejected_by_user")] : List Action)) ∧
     Action.audit (.db_write_executed_blocked (some "c1") "delete from employees"
        "rejected_by_user") ∈
        ([.audit (.db_write_decision (some "c1") false "maybe"),
          .audit (.db_write_executed_blocked (some "c1") "delete from employees"
            "rejected_by_user")] : List Action) ∧
     (Message.tool "Query was rejected by the user. No changes were made."
        (some "c1") "execute_sql") =
       .tool "Query was rejected by the user. No changes were made."
         (some "c1") "execute_sql") :=
  ⟨by decide,
   C2_fail_closed
     (.ai "" [⟨some "c1", "execute_sql", [("query", "delete from employees")]⟩])
     "maybe" (fun _ => .ok "done")
     [.audit (.db_write_decision (some "c1") false "maybe"),
      .audit (.db_write_executed_blocked (some "c1") "delete from employees"
        "rejected_by_user")]
     (.tool "Query was rejected by the user. No changes were made." (some "c1") "execute_sql")
     (by decide) rfl⟩

/-- Claim C3: for every resume that carries a feedback string, the handler
returns (never aborts the turn) and the appended `ToolMessage` carries
exactly the call id extracted from the last assistant message — in the
approved/success, approved/executor-failure and rejected branches alike. -/
theorem C3_call_id_passthrough (m : Message) (fb : String)
    (executor : String → Except String String) :
    ∃ tr content nm, handle_hitl_approval m (some fb) executor =
      .ok (tr, .tool content (extract_tool_call m).1 nm) := by
  cases hfa : feedback_approved fb with
  | false =>
    refine ⟨[.audit (.db_write_decision (extract_tool_call m).1 false fb),
             .audit (.db_write_executed_blocked (extract_tool_call m).1
               (getArg (extract_tool_call m).2.2 "query") "rejected_by_user")],
            "Query was rejected by the user. No changes were made.",
            pyOr (extract_tool_call m).2.1 "execute_sql", ?_⟩
    simp only [handle_hitl_approval]
    rw [hfa]
    simp
  | true =>
    cases hx : executor (getArg (extract_tool_call m).2.2 "query") with
    | ok r =>
      refine ⟨[.audit (.db_write_decision (extract_tool_call m).1 true fb),
               .callExecutor (getArg (extract_tool_call m).2.2 "query"),
               .audit (.db_write_executed_success (extract_tool_call m).1
                 (getArg (extract_tool_call m).2.2 "query") r)],
              r, pyOr (extract_tool_call m).2.1 "execute_sql", ?_⟩
      simp only [handle_hitl_approval]
      rw [hfa, hx]
      rfl
    | error e =>
      refine ⟨[.audit (.db_write_decision (extract_tool_call m).1 true fb),
               .callExecutor (getArg (extract_tool_call m).2.2 "query"),
               .audit (.db_write_executed_error (extract_tool_call m).1
                 (getArg (extract_tool_call m).2.2 "query") e)],
              "Error executing SQL query: " ++ e,
              pyOr (extract_tool_call m).2.1 "execute_sql", ?_⟩
      simp only [handle_hitl_approval]
      rw [hfa, hx]
      rfl

/-- Claim C1, counterexample: when the suspended assistant message carries a
non-`execute_sql` call first and the write `execute_sql` call second, the
gate classifies the invocation a write and the approver is shown the write
query (for call id `c2`), but on approval the resume handler extracts the
FIRST tool call (`extract_tool_call`), records the decision for `c1`, and
invokes the real executor with that call's `query` argument — the empty
string — not the human-approved SQL. -/
theorem C1_counterexample :
    check_if_write_operation
      [.ai "" [⟨some "c1", "search_docs", []⟩,
               ⟨some "c2", "execute_sql", [("query", "delete from employees")]⟩]] =
      "hitl_approval" ∧
    hitl_approval_extract_sql
      [⟨some "c1", "search_docs", []⟩,
       ⟨some "c2", "execute_sql", [("query", "delete from employees")]⟩] =
      ("delete from employees", some "c2") ∧
    handle_hitl_approval
      (.ai "" [⟨some "c1", "search_docs", []⟩,
               ⟨some "c2", "execute_sql", [("query", "delete from employees")]⟩])
      (some "approved") (fun _ => .ok "done") =
      .ok ([.audit (.db_write_decision (some "c1") true "approved"),
            .callExecutor "",
            .audit (.db_write_executed_success (some "c1") "" "done")],
           .tool "done" (some "c1") "search_docs") ∧
    ("" : String) ≠ "delete from employees" := by
  refine ⟨rfl, rfl, rfl, by decide⟩

/-- Claim C1 (amended): when the suspended assistant message's first (and
only) tool call is the `execute_sql` invocation, the discipline holds: the
executor is invoked only when the feedback classifies as approval, the
`db_write_decision` audit event with `approved = true` for that call id is
recorded as the first action — before the executor call, which is the second
action — and the query given to the executor is exactly the one extracted
for the approver at suspension. -/
theorem C1_write_gating (c : ToolCall) (content fb q : String)
    (executor : String → Except String String) (tr : List Action) (out : Message)
    (hname : c.name = "execute_sql")
    (h : handle_hitl_approval (.ai content [c]) (some fb) executor = .ok (tr, out))
    (hq : Action.callExecutor q ∈ tr) :
    pyLower fb = "approved".toList ∧
    q = getArg c.args "query" ∧
    (hitl_approval_extract_sql (extract_tool_calls (.ai content [c]))).1 = q ∧
    tr[0]? = some (.audit (.db_write_decision c.id true fb)) ∧
    tr[1]? = some (.callExecutor q) := by
  cases hfa : feedback_approved fb with
  | false =>
    simp only [handle_hitl_approval] at h
    rw [hfa] at h
    simp only [Bool.false_eq_true, if_false, Except.ok.injEq, Prod.mk.injEq] at h
    obtain ⟨htr, _⟩ := h
    subst htr
    simp at hq
  | true =>
    have happ : pyLower fb = "approved".toList := (feedback_approved_iff fb).mp hfa
    simp only [handle_hitl_approval] at h
    rw [hfa] at h
    cases hx : executor (getArg (extract_tool_call (.ai content [c])).2.2 "query") with
    | ok r =>
      rw [hx] at h
      simp at h
      obtain ⟨htr, _⟩ := h
      subst htr
      have hqe : q = getArg c.args "query" := by
        simp only [extract_tool_call] at hq
        simp at hq
        exact hq
      refine ⟨happ, hqe, ?_, by simp [extract_tool_call], by simp [extract_tool_call, hqe]⟩
      simp [hitl_approval_extract_sql, extract_tool_calls, hname, hqe]
    | error e =>
      rw [hx] at h
      simp at h
      obtain ⟨htr, _⟩ := h
      subst htr
      have hqe : q = getArg c.args "query" := by
        simp only [extract_tool_call] at hq
        simp at hq
        exact hq
      refine ⟨happ, hqe, ?_, by simp [extract_tool_call], by simp [extract_tool_call, hqe]⟩
      simp [hitl_approval_extract_sql, extract_tool_calls, hname, hqe]

/-- Claim C1, witness: the amended statement applied at a single-call
suspended write with feedback `"approved"` and a succeeding executor. -/
theorem C1_write_gating_witness :
    pyLower "approved" = "approved".toList ∧
    "delete from t" = getArg [("query", "delete from t")] "query" ∧
    (hitl_approval_extract_sql (extract_tool_calls
      (.ai "" [⟨some "c9", "execute_sql", [("query", "delete from t")]⟩]))).1 =
      "delete from t" ∧
    ([.audit (.db_write_decision (some "c9") true "approved"),
      .callExecutor "delete from t",
      .audit (.db_write_executed_success (some "c9") "delete from t" "ok")] :
        List Action)[0]? =
      some (.audit (.db_write_decision (some "c9") true "approved")) ∧
    ([.audit (.db_write_decision (some "c9") true "approved"),
      .callExecutor "delete from t",
      .audit (.db_write_executed_success (some "c9") "delete from t" "ok")] :
        List Action)[1]? =
      some (.callExecutor "delete from t") :=
  C1_write_gating ⟨some "c9", "execute_sql", [("query", "delete from t")]⟩ ""
    "approved" "delete from t" (fun _ => .ok "ok")
    [.audit (.db_write_decision (some "c9") true "approved"),
     .callExecutor "delete from t",
     .audit (.db_write_executed_success (some "c9") "delete from t" "ok")]
    (.tool "ok" (some "c9") "execute_sql")
    rfl rfl (by decide)

/-- Claim C6: for every state whose most recent message is a `ToolMessage`
whose lower-cased content contains a rejection marker (`"rejected by the
user"` or `"no changes were made"`), the Write Gate router returns the
terminal `END` branch and never the approval branch. -/
theorem C6_rejection_not_rerouted (msgs : List Message) (content : String)
    (idOpt : Option String) (nm : String)
    (hlast : msgs.getLast? = some (.tool content idOpt nm))
    (hrej : charsContain "rejected by the user".toList (lowerChars content.toList) = true ∨
            charsContain "no changes were made".toList (lowerChars content.toList) = true) :
    check_if_write_operation msgs = END ∧ check_if_write_operation msgs ≠ "hitl_approval" := by
  have h1 : check_if_write_operation msgs = END := by
    simp only [check_if_write_operation]
    rw [hlast]
    simp only [rejection_tool_message]
    rcases hrej with h | h <;> rw [h] <;> simp
  refine ⟨h1, ?_⟩
  rw [h1]
  decide

/-- Claim C6, witness: the router applied to a state whose last message is
the canonical rejection `ToolMessage` produced by the rejected branch. -/
theorem C6_rejection_not_rerouted_witness :
    [Message.tool "Query was rejected by the user. No changes were made."
        (some "c1") "execute_sql"].getLast? =
      some (.tool "Query was rejected by the user. No changes were made."
        (some "c1") "execute_sql") ∧
    (check_if_write_operation
        [.tool "Query was rejected by the user. No changes were made."
          (some "c1") "execute_sql"] = END ∧
      check_if_write_operation
        [.tool "Query was rejected by the user. No changes were made."
          (some "c1") "execute_sql"] ≠ "hitl_approval") :=
  ⟨rfl,
   C6_rejection_not_rerouted _
     "Query was rejected by the user. No changes were made." (some "c1") "execute_sql"
     rfl (Or.inl (by decide))⟩

/-- Claim C8, counterexample: with the verbatim-storage flag unset (first
argument `false`), the `request_received` input data still carries the raw
query text — its first field is `("query", <raw text>)`; the source comment
reads "Always store the original query (first question) for audit log
display". -/
theorem C8_counterexample :
    (audit_request_received_input_data false (fun _ => "h") "my secret question" "" [])[0]? =
      some ("query", AuditVal.str "my secret question") := rfl

/-- Claim C8 (amended): with the verbatim-storage flag unset, every SQL
statement audited through `_prepare_sql_data` is stored as a `sql_hash`
field only (no raw `sql` field); but the `request_received` event always
stores the raw query text in its `query` field, alongside a `query_hash` —
so the "no raw query text" part of the claim fails while the SQL-hashing
part holds. -/
theorem C8_privacy (hash_text : String → String) (sql query query_topic : String)
    (selected_scopes : List String) :
    prepare_sql_data false hash_text sql =
      [("sql_hash", .str ("sha256:" ++ hash_text sql))] ∧
    ("query", AuditVal.str query) ∈
      audit_request_received_input_data false hash_text query query_topic selected_scopes ∧
    ("query_hash", AuditVal.str (hash_text query)) ∈
      audit_request_received_input_data false hash_text query query_topic selected_scopes := by
  refine ⟨rfl, ?_, ?_⟩ <;>
    · simp only [audit_request_received_input_data]
      split <;> simp

/-- The read-only loop makes the gate route to the tool node: appending the
`readOnlyLLM` message (a read-classified `execute_sql` call) to any
conversation yields `"tools_hr"`. -/
theorem check_read_step (msgs : List Message) :
    check_if_write_operation (msgs ++ [readOnlyLLM msgs]) = "tools_hr" := by
  simp only [check_if_write_operation, readOnlyLLM]
  rw [List.getLast?_concat]
  simp only [rejection_tool_message, extract_tool_calls]
  decide

/-- Claim C9: the repository implements no iteration cap on the tool-calling
loop — with a model that requests the same read-classified tool call every
turn, the run alternates between `process_query` and `tools_hr` forever: it
never reaches `END` after any number of steps, and a fortiori no bounded
turn count ever surfaces a degraded "could not complete" answer. -/
theorem C9_no_iteration_cap (n : Nat) :
    ((loopStep readOnlyLLM readToolNode)^[n] ⟨"process_query", []⟩).node = "process_query" ∨
    ((loopStep readOnlyLLM readToolNode)^[n] ⟨"process_query", []⟩).node = "tools_hr" := by
  induction n with
  | zero => left; rfl
  | succ n ih =>
    rw [Function.iterate_succ_apply']
    rcases ih with h | h
    · right
      simp only [loopStep, h]
      simp [check_read_step]
    · left
      simp [loopStep, h]

/-- Claim C10: the intent router is not total over the graph's wiring — the
topic classifier's structured output admits `"onboarding"`, `route_input`
returns the branch `"onboarding"` for it, but the conditional-edge mapping
registered out of `summarize_query` contains only `"policy_studio"` and
`"process_query"`; the other two route values do land in the mapping. -/
theorem C10_router_totality_gap :
    ("onboarding" ∈ query_summary_routes) ∧
    route_input (some "onboarding") = "onboarding" ∧
    (summarize_query_mapping.map Prod.fst).contains "onboarding" = false ∧
    (query_summary_routes.all fun r =>
      r == "onboarding" ||
        (summarize_query_mapping.map Prod.fst).contains (route_input (some r))) = true := by
  decide

end HRAgent
